import Mathlib

/-!
Shallow embedding of `src/jira3.py`, a thin Jira REST client exposing five
operations (get_epic_name_field_id, get_project_info, download_attachments,
upload_attachment, list_tmp_files).  The HTTP layer is modelled as an oracle
passed to each operation (`Except String payload`: an `error` value is a
`requests.RequestException` whose message is the string).  The local
filesystem is an explicit state; logging and issued HTTP requests are
returned as lists.  Python `None` is `Option.none`; an uncaught Python
exception is the `Outcome.raised` constructor.
-/

namespace Jira3

/-- Python logging levels used by the script. -/
inductive Level where
  | debug
  | info
  | warning
  | error
deriving DecidableEq, Repr

/-- A log entry: level and message. -/
abbrev LogEntry := Level × String

/-- HTTP method of an outbound request. -/
inductive Method where
  | get
  | post
deriving DecidableEq, Repr

/-- An outbound HTTP request (method and URL; auth and headers carry no
information relevant to the claims). -/
structure HttpReq where
  method : Method
  url : String
deriving DecidableEq, Repr

/-- Python exceptions that the script can raise uncaught. -/
inductive PyExc where
  | attributeError
  | fileNotFoundError
deriving DecidableEq, Repr

/-- Result of running one operation body: a normal return (Python returns
`None` when a function falls off the end, hence the inner `Option`), or an
uncaught exception. -/
inductive Outcome (α : Type) where
  | ok : Option α → Outcome α
  | raised : PyExc → Outcome α
deriving DecidableEq, Repr

/-- Python/JSON values returned by the tools (enough structure for the
dictionaries the script builds). -/
inductive PyVal where
  | vnone : PyVal
  | str : String → PyVal
  | int : Int → PyVal
  | list : List PyVal → PyVal
  | dict : List (String × PyVal) → PyVal
deriving Repr

/-- The environment configuration read at module load
(`os.getenv` returns `None` when the variable is unset). -/
structure Config where
  jiraUrl : Option String
  jiraUsername : Option String
  jiraApiToken : Option String
  projectKey : Option String
  issueKey : Option String
deriving DecidableEq, Repr

/-- Python f-string rendering of a possibly-`None` string. -/
def pyStr : Option String → String
  | none => "None"
  | some s => s

/-- JSON rendering of a possibly-missing string field (`dict.get` default). -/
def optVal : Option String → PyVal
  | none => PyVal.vnone
  | some s => PyVal.str s

/-- Python truthiness test on an optional string: `not x` is true exactly
for `None` and the empty string. -/
def falsy : Option String → Bool
  | none => true
  | some s => s == ""

/-- The local filesystem: whether the `tmp` directory exists, and the files,
as an association list from full path to content (the head entry for a path
is its current content). -/
structure FS where
  tmpExists : Bool
  files : List (String × String)
deriving DecidableEq, Repr

/-- `open(path, "wb"); write(content)`: create or overwrite the file at
`path`.  The newest entry shadows older ones. -/
def FS.write (fs : FS) (path content : String) : FS :=
  ⟨fs.tmpExists, (path, content) :: fs.files⟩

/-- `os.path.exists`, for the file paths the script tests. -/
def FS.hasFile (fs : FS) (path : String) : Bool :=
  (fs.files.lookup path).isSome

/-- `str.startswith` on the underlying character lists (equivalent to
`String.startsWith`, but by structural recursion). -/
def strStartsWith (s pre : String) : Bool :=
  pre.data.isPrefixOf s.data

/-- `os.path.join(a, b)` for the cases the script uses (`a = "tmp"`):
an absolute second component discards the first. -/
def osPathJoin (a b : String) : String :=
  if strStartsWith b "/" then b else a ++ "/" ++ b

/-- Result of running one operation: the outcome, the log entries emitted,
the HTTP requests issued, and the final filesystem. -/
structure OpResult where
  outcome : Outcome PyVal
  log : List LogEntry
  requests : List HttpReq
  fs : FS

/-- A field object from the Jira field-list payload: an optional `name`
(read with `field.get("name")`) and an `id` (read with `field["id"]`). -/
structure Field where
  name : Option String
  id : String
deriving DecidableEq, Repr

/-- The `for field in fields` loop of `get_epic_name_field_id`: the id of
the first field named "Epic Name", if any. -/
def findEpicId : List Field → Option String
  | [] => none
  | f :: rest => if f.name == some "Epic Name" then some f.id else findEpicId rest

/-- `get_epic_name_field_id` (src/jira3.py lines 21-40). -/
def get_epic_name_field_id (cfg : Config) (resp : Except String (List Field))
    (fs : FS) : OpResult :=
  let url := pyStr cfg.jiraUrl ++ "/rest/api/3/field"
  let req : HttpReq := ⟨Method.get, url⟩
  match resp with
  | Except.error e =>
      ⟨Outcome.ok none,
       [(Level.error, "Error fetching Epic Name field ID: " ++ e)], [req], fs⟩
  | Except.ok fields =>
      match findEpicId fields with
      | some fid => ⟨Outcome.ok (some (PyVal.str fid)), [], [req], fs⟩
      | none => ⟨Outcome.ok (some (PyVal.str "customfield_10011")), [], [req], fs⟩

/-- The project payload fields `get_project_info` reads
(each via `project.get`, so each may be absent). -/
structure ProjectPayload where
  name : Option String
  id : Option String
  projectTypeKey : Option String
  description : Option String
deriving DecidableEq, Repr

/-- `get_project_info` (src/jira3.py lines 42-67). -/
def get_project_info (cfg : Config) (resp : Except String ProjectPayload)
    (fs : FS) : OpResult :=
  let url := pyStr cfg.jiraUrl ++ "/rest/api/3/project/" ++ pyStr cfg.projectKey
  let req : HttpReq := ⟨Method.get, url⟩
  match resp with
  | Except.error e =>
      ⟨Outcome.ok none,
       [(Level.error,
         "Error fetching project info for " ++ pyStr cfg.projectKey ++ ": " ++ e)],
       [req], fs⟩
  | Except.ok p =>
      ⟨Outcome.ok (some (PyVal.dict
        [("project_key", optVal cfg.projectKey),
         ("project_name", optVal p.name),
         ("project_id", optVal p.id),
         ("project_type", optVal p.projectTypeKey),
         ("description", PyVal.str (p.description.getD "No description available"))])),
       [], [req], fs⟩

/-- One attachment object from an issue payload: its `content` URL and its
`filename`. -/
structure Attachment where
  content : String
  filename : String
deriving DecidableEq, Repr

/-- The `fields` object of an issue payload: an optional `attachment` list. -/
structure IssueFields where
  attachment : Option (List Attachment)
deriving DecidableEq, Repr

/-- An issue payload: an optional `fields` object. -/
structure IssuePayload where
  fields : Option IssueFields
deriving DecidableEq, Repr

/-- `issue.get("fields", \x7b\x7d).get("attachment", [])`. -/
def IssuePayload.attachments (p : IssuePayload) : List Attachment :=
  match p.fields with
  | none => []
  | some fl => fl.attachment.getD []

/-- The shared prologue of `download_attachments` and `upload_attachment`
(lines 79-84 and 144-149): when the argument is falsy, log an error if the
environment `ISSUE_KEY` is falsy too, then use the environment value.
Returns the Python value bound to `issue_key` and the log entries. -/
def resolveIssueKey (cfg : Config) (arg : Option String) :
    Option String × List LogEntry :=
  if falsy arg then
    let errLog : List LogEntry :=
      if falsy cfg.issueKey then
        [(Level.error, "No issue_key provided and ISSUE_KEY environment variable not set")]
      else []
    (cfg.issueKey,
     errLog ++ [(Level.info,
       "No issue_key provided, using environment ISSUE_KEY: " ++ pyStr cfg.issueKey)])
  else (arg, [])

/-- `issue_key.startswith(f"\x7bPROJECT_KEY\x7d-")`. -/
def startsWithProj (cfg : Config) (k : String) : Bool :=
  strStartsWith k (pyStr cfg.projectKey ++ "-")

/-- The warning of the project-membership check (lines 86-88, 151-153). -/
def projWarnLog (cfg : Config) (k : String) : List LogEntry :=
  if startsWithProj cfg k then []
  else [(Level.warning,
    "Issue key " ++ k ++ " does not belong to configured project " ++ pyStr cfg.projectKey)]

/-- The `for attachment in attachments` loop of `download_attachments`
(lines 109-121).  `fileResp` maps a content URL to the HTTP outcome of the
GET for it.  Returns the saved file paths in order (or the first request
error), the final filesystem, the requests issued, and the debug logs. -/
def downloadLoop (fileResp : String → Except String String) :
    List Attachment → FS → Except String (List String) × FS × List HttpReq × List LogEntry
  | [], fs => (Except.ok [], fs, [], [])
  | a :: rest, fs =>
      match fileResp a.content with
      | Except.error e => (Except.error e, fs, [⟨Method.get, a.content⟩], [])
      | Except.ok content =>
          let path := osPathJoin "tmp" a.filename
          let r := downloadLoop fileResp rest (fs.write path content)
          (r.1.map (fun saved => path :: saved), r.2.1,
           ⟨Method.get, a.content⟩ :: r.2.2.1,
           (Level.debug, "Downloaded attachment: " ++ path) :: r.2.2.2)

/-- `download_attachments` (src/jira3.py lines 69-131).  `issueResp` is the
HTTP outcome of the GET for the issue; `fileResp` gives the outcome of the
GET for each attachment content URL. -/
def download_attachments (cfg : Config) (issueKeyArg : Option String)
    (issueResp : Except String IssuePayload)
    (fileResp : String → Except String String) (fs : FS) : OpResult :=
  let kres := resolveIssueKey cfg issueKeyArg
  match kres.1 with
  | none => ⟨Outcome.raised PyExc.attributeError, kres.2, [], fs⟩
  | some issue_key =>
      let log1 := kres.2 ++ projWarnLog cfg issue_key
      let url := pyStr cfg.jiraUrl ++ "/rest/api/3/issue/" ++ issue_key
      let req : HttpReq := ⟨Method.get, url⟩
      match issueResp with
      | Except.error e =>
          ⟨Outcome.ok none,
           log1 ++ [(Level.error,
             "Error downloading attachments for " ++ issue_key ++ ": " ++ e)],
           [req], fs⟩
      | Except.ok issue =>
          let atts := issue.attachments
          let fs1 : FS := ⟨true, fs.files⟩
          if atts.isEmpty then
            ⟨Outcome.ok (some (PyVal.dict
               [("downloaded_files", PyVal.list []),
                ("message", PyVal.str ("No attachments found for issue " ++ issue_key))])),
             log1 ++ [(Level.info, "No attachments found for issue " ++ issue_key)],
             [req], fs1⟩
          else
            let r := downloadLoop fileResp atts fs1
            match r.1 with
            | Except.error e =>
                ⟨Outcome.ok none,
                 log1 ++ r.2.2.2 ++ [(Level.error,
                   "Error downloading attachments for " ++ issue_key ++ ": " ++ e)],
                 req :: r.2.2.1, r.2.1⟩
            | Except.ok saved =>
                ⟨Outcome.ok (some (PyVal.dict
                   [("downloaded_files", PyVal.list (saved.map PyVal.str)),
                    ("message", PyVal.str ("Successfully downloaded " ++
                      toString saved.length ++ " attachments from issue " ++ issue_key)),
                    ("issue_key", PyVal.str issue_key),
                    ("project_key", optVal cfg.projectKey)])),
                 log1 ++ r.2.2.2, req :: r.2.2.1, r.2.1⟩

/-- `upload_attachment` (src/jira3.py lines 133-178).  `postResp` is the
HTTP outcome of the POST of the file. -/
def upload_attachment (cfg : Config) (filename : String)
    (issueKeyArg : Option String) (postResp : Except String Unit) (fs : FS) : OpResult :=
  let kres := resolveIssueKey cfg issueKeyArg
  match kres.1 with
  | none => ⟨Outcome.raised PyExc.attributeError, kres.2, [], fs⟩
  | some issue_key =>
      let log1 := kres.2 ++ projWarnLog cfg issue_key
      let url := pyStr cfg.jiraUrl ++ "/rest/api/3/issue/" ++ issue_key ++ "/attachments"
      let file_path := osPathJoin "tmp" filename
      let log2 := log1 ++
        (if fs.hasFile file_path then []
         else [(Level.error, "File " ++ file_path ++ " not found")])
      if fs.hasFile file_path then
        match postResp with
        | Except.error e =>
            ⟨Outcome.ok none,
             log2 ++ [(Level.error,
               "Error uploading " ++ filename ++ " to " ++ issue_key ++ ": " ++ e)],
             [⟨Method.post, url⟩], fs⟩
        | Except.ok _ =>
            ⟨Outcome.ok (some (PyVal.dict
               [("uploaded_file", PyVal.str filename),
                ("message", PyVal.str ("Successfully uploaded " ++ filename ++
                  " to issue " ++ issue_key)),
                ("issue_key", PyVal.str issue_key),
                ("project_key", optVal cfg.projectKey)])),
             log2 ++ [(Level.debug,
               "Uploaded attachment: " ++ filename ++ " to " ++ issue_key)],
             [⟨Method.post, url⟩], fs⟩
      else
        ⟨Outcome.raised PyExc.fileNotFoundError, log2, [], fs⟩

/-- Splitting a character list at every slash, as `os.listdir`-visible path
components (mirrors the structure of paths under the flat path-string
filesystem model). -/
def splitSlash : List Char → List (List Char)
  | [] => [[]]
  | c :: rest =>
      let r := splitSlash rest
      if c = '/' then [] :: r
      else
        match r with
        | [] => [[c]]
        | h :: t => (c :: h) :: t

/-- The file names visible in the `tmp` directory: deduplicated file paths
of the form `tmp/<name>` with `<name>` containing no further slash. -/
def FS.tmpNames (fs : FS) : List String :=
  ((fs.files.map Prod.fst).eraseDups).filterMap (fun p =>
    if strStartsWith p "tmp/" then
      let nm := p.data.drop 4
      if nm.contains '/' then none else some (String.mk nm)
    else none)

/-- `list_tmp_files` (src/jira3.py lines 180-199). -/
def list_tmp_files (fs : FS) : OpResult :=
  if fs.tmpExists then
    let names := fs.tmpNames
    ⟨Outcome.ok (some (PyVal.dict
       [("files", PyVal.list (names.map PyVal.str)),
        ("count", PyVal.int names.length),
        ("message", PyVal.str ("Found " ++ toString names.length ++
          " files in tmp directory"))])),
     [], [], fs⟩
  else
    ⟨Outcome.ok (some (PyVal.dict
       [("files", PyVal.list []),
        ("message", PyVal.str "tmp directory does not exist")])),
     [], [], fs⟩

/-- Whether a log contains an error-level entry. -/
def hasError (log : List LogEntry) : Bool :=
  log.any (fun e => e.1 == Level.error)

/-- Whether an HTTP oracle answer is a `requests.RequestException`. -/
def isErr : Except String String → Bool
  | Except.error _ => true
  | Except.ok _ => false

/-- A path lies inside the `tmp` directory: its first slash-component is
`tmp`, there is at least one further component, and no component is `..`. -/
def pathInsideTmp (p : String) : Bool :=
  match splitSlash p.data with
  | [] => false
  | first :: rest =>
      first = "tmp".data && !(rest.isEmpty) && !(rest.contains "..".data)

/-- An attachment filename that cannot escape `tmp`: not absolute and with
no `..` component. -/
def safeName (f : String) : Bool :=
  !(strStartsWith f "/") && !((splitSlash f.data).contains "..".data)

/-- The attachment list carried by an issue-GET oracle answer (empty when
the request fails). -/
def attachmentsOf : Except String IssuePayload → List Attachment
  | Except.error _ => []
  | Except.ok p => p.attachments

/-- Concrete configuration with every environment variable set. -/
def cfgA : Config := ⟨some "https://j", some "u", some "t", some "DA", some "DA-9"⟩

/-- Concrete configuration with `ISSUE_KEY` unset. -/
def cfgNoIssue : Config := ⟨some "https://j", some "u", some "t", some "DA", none⟩

/-- An empty filesystem without a `tmp` directory. -/
def fs0 : FS := ⟨false, []⟩

/-- A filesystem holding one file inside `tmp`. -/
def fsF : FS := ⟨true, [("tmp/f.txt", "data")]⟩

/-- An issue payload with a single attachment whose filename is an absolute
path, as a hostile server could return. -/
def evilPayload : IssuePayload := ⟨some ⟨some [⟨"https://j/c/1", "/etc/passwd"⟩]⟩⟩

/-- An issue payload with one well-behaved attachment. -/
def goodPayload : IssuePayload := ⟨some ⟨some [⟨"https://j/c/1", "a.txt"⟩]⟩⟩

/-- An issue payload with no `fields` object at all. -/
def emptyPayload : IssuePayload := ⟨none⟩

/-- A field list containing an "Epic Name" field. -/
def fieldsWithEpic : List Field :=
  [⟨some "Other", "f1"⟩, ⟨some "Epic Name", "f2"⟩, ⟨some "Epic Name", "f3"⟩]

/-- A concrete project payload without a description. -/
def projNoDesc : ProjectPayload := ⟨some "Name", some "10000", some "software", none⟩

end Jira3

namespace Jira3

theorem splitSlash_ne_nil (l : List Char) : splitSlash l ≠ [] := by
  induction l with
  | nil => simp [splitSlash]
  | cons c rest ih =>
      simp only [splitSlash]
      split
      · simp
      · cases h : splitSlash rest with
        | nil => exact absurd h ih
        | cons a b => simp

theorem splitSlash_tmp (l : List Char) :
    splitSlash ('t' :: 'm' :: 'p' :: '/' :: l) = ['t', 'm', 'p'] :: splitSlash l := rfl

theorem hasFile_write (fs : FS) (p q c : String) (h : fs.hasFile p = true) :
    (fs.write q c).hasFile p = true := by
  simp only [FS.hasFile, FS.write, List.lookup] at *
  split <;> simp_all

theorem lookup_write_ne (fs : FS) (p q c : String) (h : q ≠ p) :
    ((fs.write q c).files.lookup p) = fs.files.lookup p := by
  simp only [FS.write, List.lookup]
  split <;> simp_all

/-- A safe filename joins to a path inside `tmp`. -/
theorem pathInsideTmp_join (f : String) (h : safeName f = true) :
    pathInsideTmp (osPathJoin "tmp" f) = true := by
  simp only [safeName, Bool.and_eq_true, Bool.not_eq_eq_eq_not, Bool.not_true] at h
  obtain ⟨h1, h2⟩ := h
  have hjoin : osPathJoin "tmp" f = "tmp/" ++ f := by
    simp [osPathJoin, h1]
  have hdata : ("tmp/" ++ f).data = 't' :: 'm' :: 'p' :: '/' :: f.data := by
    simp [String.data_append]
  simp only [pathInsideTmp, hjoin, hdata, splitSlash_tmp]
  simp [splitSlash_ne_nil f.data, List.isEmpty_iff]
  simpa using h2

end Jira3


namespace Jira3

theorem downloadLoop_tmpExists (fr : String → Except String String)
    (atts : List Attachment) (fs : FS) :
    (downloadLoop fr atts fs).2.1.tmpExists = fs.tmpExists := by
  induction atts generalizing fs with
  | nil => simp [downloadLoop]
  | cons a rest ih =>
      simp only [downloadLoop]
      cases fr a.content with
      | error e => simp
      | ok content => simpa [FS.write] using ih (fs.write (osPathJoin "tmp" a.filename) content)

theorem downloadLoop_hasFile (fr : String → Except String String)
    (atts : List Attachment) (fs : FS) (p : String) (h : fs.hasFile p = true) :
    (downloadLoop fr atts fs).2.1.hasFile p = true := by
  induction atts generalizing fs with
  | nil => simpa [downloadLoop]
  | cons a rest ih =>
      simp only [downloadLoop]
      cases fr a.content with
      | error e => simpa
      | ok content =>
          exact ih _ (hasFile_write fs p (osPathJoin "tmp" a.filename) content h)

theorem downloadLoop_lookup (fr : String → Except String String)
    (atts : List Attachment) (fs : FS) (p : String)
    (h : ∀ a ∈ atts, osPathJoin "tmp" a.filename ≠ p) :
    (downloadLoop fr atts fs).2.1.files.lookup p = fs.files.lookup p := by
  induction atts generalizing fs with
  | nil => simp [downloadLoop]
  | cons a rest ih =>
      simp only [downloadLoop]
      cases fr a.content with
      | error e => simp
      | ok content =>
          have hrest := ih (fs.write (osPathJoin "tmp" a.filename) content)
            (fun b hb => h b (List.mem_cons_of_mem a hb))
          rw [hrest]
          exact lookup_write_ne fs p (osPathJoin "tmp" a.filename) content
            (h a (List.mem_cons_self a rest))

theorem downloadLoop_err (fr : String → Except String String)
    (atts : List Attachment) (fs : FS)
    (h : atts.any (fun a => isErr (fr a.content)) = true) :
    ∃ e, (downloadLoop fr atts fs).1 = Except.error e := by
  induction atts generalizing fs with
  | nil => simp at h
  | cons a rest ih =>
      simp only [downloadLoop]
      cases hf : fr a.content with
      | error e => exact ⟨e, rfl⟩
      | ok content =>
          simp only [List.any_cons, hf, isErr, Bool.false_or] at h
          obtain ⟨e, he⟩ := ih (fs.write (osPathJoin "tmp" a.filename) content) h
          refine ⟨e, ?_⟩
          simp [he, Except.map]

theorem downloadLoop_reqs_len (fr : String → Except String String)
    (atts : List Attachment) (fs : FS) :
    (downloadLoop fr atts fs).2.2.1.length ≤ atts.length := by
  induction atts generalizing fs with
  | nil => simp [downloadLoop]
  | cons a rest ih =>
      simp only [downloadLoop]
      cases fr a.content with
      | error e => simp
      | ok content =>
          simpa using ih (fs.write (osPathJoin "tmp" a.filename) content)

theorem findEpicId_eq_find (fields : List Field) :
    findEpicId fields =
      (fields.find? (fun f => f.name == some "Epic Name")).map Field.id := by
  induction fields with
  | nil => simp [findEpicId]
  | cons f rest ih =>
      cases hname : (f.name == some "Epic Name") <;>
        simp [findEpicId, List.find?, hname, ih]

end Jira3

namespace Jira3

/-- C1: when `download_attachments` is called with the issue_key argument
omitted and the `ISSUE_KEY` environment variable unset, the code logs the
configuration error but then raises an uncaught AttributeError from
`None.startswith(...)` before any HTTP request, so the operation does
crash, contrary to the claim that it only logs. -/
theorem c1_download_crashes_without_issue_key :
    (download_attachments cfgNoIssue none (Except.error "boom")
        (fun _ => Except.error "boom") fs0).outcome
      = Outcome.raised PyExc.attributeError
    ∧ ((Level.error,
        "No issue_key provided and ISSUE_KEY environment variable not set")
        ∈ (download_attachments cfgNoIssue none (Except.error "boom")
            (fun _ => Except.error "boom") fs0).log) := by
  constructor
  · rfl
  · have hlog : (download_attachments cfgNoIssue none (Except.error "boom")
        (fun _ => Except.error "boom") fs0).log
        = [(Level.error,
            "No issue_key provided and ISSUE_KEY environment variable not set"),
           (Level.info, "No issue_key provided, using environment ISSUE_KEY: None")] := rfl
    rw [hlog]
    exact List.mem_cons_self _ _

/-- C2: when `upload_attachment` is called with a filename that does not
exist in the tmp scratch directory, the code logs the error but then raises
an uncaught FileNotFoundError from `open` (the `except` clause only catches
RequestException), so the operation does crash, contrary to the claim. -/
theorem c2_upload_crashes_on_missing_file :
    (upload_attachment cfgA "nope.txt" (some "DA-1") (Except.ok ()) fs0).outcome
      = Outcome.raised PyExc.fileNotFoundError
    ∧ ((Level.error, "File tmp/nope.txt not found")
        ∈ (upload_attachment cfgA "nope.txt" (some "DA-1") (Except.ok ()) fs0).log) := by
  constructor
  · rfl
  · have hlog : (upload_attachment cfgA "nope.txt" (some "DA-1") (Except.ok ()) fs0).log
        = [(Level.error, "File tmp/nope.txt not found")] := rfl
    rw [hlog]
    exact List.mem_singleton.mpr rfl

/-- C4 counterexample: an attachment whose server-supplied filename is the
absolute path "/etc/passwd" makes `download_attachments` create a file at
"/etc/passwd", a path not inside the tmp directory, refuting the claim
that all filesystem side effects are confined to tmp. -/
theorem c4_counterexample_absolute_filename_escapes_tmp :
    ((download_attachments cfgA (some "DA-1") (Except.ok evilPayload)
        (fun _ => Except.ok "xx") fs0).fs.files.lookup "/etc/passwd" = some "xx")
    ∧ pathInsideTmp "/etc/passwd" = false
    ∧ fs0.files.lookup "/etc/passwd" = none := by
  refine ⟨rfl, by decide, rfl⟩

end Jira3

namespace Jira3

/-- C6: on a successful response, `get_project_info` returns a dictionary
with exactly the keys project_key, project_name, project_id, project_type
and description, where project_key is the configured PROJECT_KEY, the next
three come from the payload fields name, id and projectTypeKey, and
description is "No description available" whenever the payload has no
description field. -/
theorem c6_get_project_info_maps_payload (cfg : Config) (p : ProjectPayload) (fs : FS) :
    (get_project_info cfg (Except.ok p) fs).outcome
      = Outcome.ok (some (PyVal.dict
          [("project_key", optVal cfg.projectKey),
           ("project_name", optVal p.name),
           ("project_id", optVal p.id),
           ("project_type", optVal p.projectTypeKey),
           ("description", PyVal.str (match p.description with
             | none => "No description available"
             | some d => d))])) := by
  cases hd : p.description <;> simp [get_project_info, hd]

/-- C8: on a successful field-list response, `get_epic_name_field_id`
returns the id of the first field named "Epic Name", and the fallback
"customfield_10011" when no such field exists. -/
theorem c8_epic_field_first_match_or_fallback (cfg : Config)
    (fields : List Field) (fs : FS) :
    (get_epic_name_field_id cfg (Except.ok fields) fs).outcome
      = Outcome.ok (some (PyVal.str
          (match fields.find? (fun f => f.name == some "Epic Name") with
           | some f => f.id
           | none => "customfield_10011"))) := by
  have h := findEpicId_eq_find fields
  simp only [get_epic_name_field_id, h]
  cases hf : fields.find? (fun f => f.name == some "Epic Name") <;>
    simp [hf, Option.map]

end Jira3

namespace Jira3

theorem resolveIssueKey_truthy (cfg : Config) (k : String)
    (hk : falsy (some k) = false) :
    resolveIssueKey cfg (some k) = (some k, []) := by
  simp [resolveIssueKey, hk]

theorem resolveIssueKey_falsy_fst (cfg : Config) (arg : Option String)
    (ha : falsy arg = true) :
    (resolveIssueKey cfg arg).1 = cfg.issueKey := by
  simp [resolveIssueKey, ha]

theorem epic_fs_eq (cfg : Config) (resp : Except String (List Field)) (fs : FS) :
    (get_epic_name_field_id cfg resp fs).fs = fs := by
  cases resp with
  | error e => rfl
  | ok fields =>
      simp only [get_epic_name_field_id]
      cases findEpicId fields <;> rfl

theorem project_fs_eq (cfg : Config) (resp : Except String ProjectPayload) (fs : FS) :
    (get_project_info cfg resp fs).fs = fs := by
  cases resp <;> rfl

theorem upload_fs_eq (cfg : Config) (filename : String) (arg : Option String)
    (postResp : Except String Unit) (fs : FS) :
    (upload_attachment cfg filename arg postResp fs).fs = fs := by
  simp only [upload_attachment]
  cases (resolveIssueKey cfg arg).1 with
  | none => rfl
  | some k =>
      simp only
      by_cases hf : fs.hasFile (osPathJoin "tmp" filename) <;>
        simp only [hf, if_true, if_false] <;>
        first
          | rfl
          | (cases postResp <;> rfl)

theorem list_fs_eq (fs : FS) : (list_tmp_files fs).fs = fs := by
  simp only [list_tmp_files]
  by_cases ht : fs.tmpExists <;> simp [ht]

theorem download_fs_spec (cfg : Config) (arg : Option String)
    (issueResp : Except String IssuePayload)
    (fr : String → Except String String) (fs : FS) :
    (download_attachments cfg arg issueResp fr fs).fs = fs
    ∨ (download_attachments cfg arg issueResp fr fs).fs
        = (downloadLoop fr (attachmentsOf issueResp) ⟨true, fs.files⟩).2.1 := by
  simp only [download_attachments]
  cases (resolveIssueKey cfg arg).1 with
  | none => exact Or.inl rfl
  | some k =>
      simp only
      cases issueResp with
      | error e => exact Or.inl rfl
      | ok issue =>
          simp only [attachmentsOf]
          by_cases hemp : issue.attachments.isEmpty
          · right
            rw [List.isEmpty_iff] at hemp
            simp [hemp, downloadLoop]
          · simp only [hemp, if_false, Bool.false_eq_true]
            cases hr : (downloadLoop fr issue.attachments ⟨true, fs.files⟩).1 <;>
              simp [hr]

end Jira3

namespace Jira3

/-- C5: no operation deletes a file: any file present before a call to any
of the five operations is still present afterwards. -/
theorem c5_no_operation_deletes_files (cfg : Config)
    (fldResp : Except String (List Field)) (projResp : Except String ProjectPayload)
    (arg : Option String) (issueResp : Except String IssuePayload)
    (fr : String → Except String String) (filename : String)
    (postResp : Except String Unit) (fs : FS) (p : String)
    (h : fs.hasFile p = true) :
    (get_epic_name_field_id cfg fldResp fs).fs.hasFile p = true
    ∧ (get_project_info cfg projResp fs).fs.hasFile p = true
    ∧ (download_attachments cfg arg issueResp fr fs).fs.hasFile p = true
    ∧ (upload_attachment cfg filename arg postResp fs).fs.hasFile p = true
    ∧ (list_tmp_files fs).fs.hasFile p = true := by
  refine ⟨by rw [epic_fs_eq]; exact h, by rw [project_fs_eq]; exact h, ?_,
    by rw [upload_fs_eq]; exact h, by rw [list_fs_eq]; exact h⟩
  rcases download_fs_spec cfg arg issueResp fr fs with hd | hd
  · rw [hd]; exact h
  · rw [hd]
    exact downloadLoop_hasFile fr (attachmentsOf issueResp) ⟨true, fs.files⟩ p h

/-- C5 witness at concrete inputs. -/
theorem c5_no_operation_deletes_files_witness :
    (get_epic_name_field_id cfgA (Except.ok fieldsWithEpic) fsF).fs.hasFile "tmp/f.txt" = true
    ∧ (get_project_info cfgA (Except.ok projNoDesc) fsF).fs.hasFile "tmp/f.txt" = true
    ∧ (download_attachments cfgA (some "DA-1") (Except.ok goodPayload)
        (fun _ => Except.ok "xx") fsF).fs.hasFile "tmp/f.txt" = true
    ∧ (upload_attachment cfgA "f.txt" (some "DA-1") (Except.ok ()) fsF).fs.hasFile
        "tmp/f.txt" = true
    ∧ (list_tmp_files fsF).fs.hasFile "tmp/f.txt" = true :=
  c5_no_operation_deletes_files cfgA (Except.ok fieldsWithEpic) (Except.ok projNoDesc)
    (some "DA-1") (Except.ok goodPayload) (fun _ => Except.ok "xx") "f.txt"
    (Except.ok ()) fsF "tmp/f.txt" (by decide)

/-- C4 (amended): every write of `download_attachments` goes to
`os.path.join("tmp", filename)`; when every attachment filename in the
payload is relative and free of `..` components, no path outside the `tmp`
directory is created, modified or deleted by any operation. -/
theorem c4_amended_writes_confined_to_tmp_for_safe_names (cfg : Config)
    (arg : Option String) (issueResp : Except String IssuePayload)
    (fr : String → Except String String) (filename : String)
    (postResp : Except String Unit) (fldResp : Except String (List Field))
    (projResp : Except String ProjectPayload) (fs : FS) (p : String)
    (hsafe : ∀ a ∈ attachmentsOf issueResp, safeName a.filename = true)
    (hout : pathInsideTmp p = false) :
    (download_attachments cfg arg issueResp fr fs).fs.files.lookup p
      = fs.files.lookup p
    ∧ (upload_attachment cfg filename arg postResp fs).fs = fs
    ∧ (list_tmp_files fs).fs = fs
    ∧ (get_epic_name_field_id cfg fldResp fs).fs = fs
    ∧ (get_project_info cfg projResp fs).fs = fs := by
  refine ⟨?_, upload_fs_eq cfg filename arg postResp fs, list_fs_eq fs,
    epic_fs_eq cfg fldResp fs, project_fs_eq cfg projResp fs⟩
  rcases download_fs_spec cfg arg issueResp fr fs with hd | hd
  · rw [hd]
  · rw [hd]
    exact downloadLoop_lookup fr (attachmentsOf issueResp) ⟨true, fs.files⟩ p
      (fun a ha => by
        intro hcontra
        have hin := pathInsideTmp_join a.filename (hsafe a ha)
        rw [hcontra, hout] at hin
        exact Bool.false_ne_true hin)

/-- C4 amended witness at concrete inputs. -/
theorem c4_amended_witness :
    (download_attachments cfgA (some "DA-1") (Except.ok goodPayload)
        (fun _ => Except.ok "xx") fs0).fs.files.lookup "/etc/passwd"
      = fs0.files.lookup "/etc/passwd"
    ∧ (upload_attachment cfgA "f.txt" (some "DA-1") (Except.ok ()) fs0).fs = fs0
    ∧ (list_tmp_files fs0).fs = fs0
    ∧ (get_epic_name_field_id cfgA (Except.ok fieldsWithEpic) fs0).fs = fs0
    ∧ (get_project_info cfgA (Except.ok projNoDesc) fs0).fs = fs0 :=
  c4_amended_writes_confined_to_tmp_for_safe_names cfgA (some "DA-1")
    (Except.ok goodPayload) (fun _ => Except.ok "xx") "f.txt" (Except.ok ())
    (Except.ok fieldsWithEpic) (Except.ok projNoDesc) fs0 "/etc/passwd"
    (by decide) (by decide)

end Jira3

namespace Jira3

/-- C10: when the issue payload has no attachments, `download_attachments`
writes nothing, returns the empty downloaded_files list with a message
naming the issue key, and still marks the tmp directory as created. -/
theorem c10_empty_attachments (cfg : Config) (k : String) (payload : IssuePayload)
    (fr : String → Except String String) (fs : FS)
    (hk : falsy (some k) = false) (hatt : payload.attachments = []) :
    (download_attachments cfg (some k) (Except.ok payload) fr fs).outcome
      = Outcome.ok (some (PyVal.dict
          [("downloaded_files", PyVal.list []),
           ("message", PyVal.str ("No attachments found for issue " ++ k))]))
    ∧ (download_attachments cfg (some k) (Except.ok payload) fr fs).fs.files
        = fs.files
    ∧ (download_attachments cfg (some k) (Except.ok payload) fr fs).fs.tmpExists
        = true := by
  simp [download_attachments, resolveIssueKey_truthy cfg k hk, hatt]

/-- C10 witness at concrete inputs. -/
theorem c10_empty_attachments_witness :
    (download_attachments cfgA (some "DA-1") (Except.ok emptyPayload)
        (fun _ => Except.ok "xx") fs0).outcome
      = Outcome.ok (some (PyVal.dict
          [("downloaded_files", PyVal.list []),
           ("message", PyVal.str ("No attachments found for issue " ++ "DA-1"))]))
    ∧ (download_attachments cfgA (some "DA-1") (Except.ok emptyPayload)
        (fun _ => Except.ok "xx") fs0).fs.files = fs0.files
    ∧ (download_attachments cfgA (some "DA-1") (Except.ok emptyPayload)
        (fun _ => Except.ok "xx") fs0).fs.tmpExists = true :=
  c10_empty_attachments cfgA "DA-1" emptyPayload (fun _ => Except.ok "xx") fs0
    (by decide) (by decide)

/-- C7: when the issue_key argument is falsy and `ISSUE_KEY` is set, both
`download_attachments` and `upload_attachment` build their request URLs
from the environment issue key. -/
theorem c7_env_issue_key_used (cfg : Config) (arg : Option String) (k : String)
    (issueResp : Except String IssuePayload) (fr : String → Except String String)
    (filename : String) (postResp : Except String Unit) (fs : FS)
    (ha : falsy arg = true) (hk : cfg.issueKey = some k) :
    (download_attachments cfg arg issueResp fr fs).requests.head?
      = some ⟨Method.get, pyStr cfg.jiraUrl ++ "/rest/api/3/issue/" ++ k⟩
    ∧ ∀ q ∈ (upload_attachment cfg filename arg postResp fs).requests,
        q.url = pyStr cfg.jiraUrl ++ "/rest/api/3/issue/" ++ k ++ "/attachments" := by
  have hres : (resolveIssueKey cfg arg).1 = some k := by
    rw [resolveIssueKey_falsy_fst cfg arg ha, hk]
  constructor
  · simp only [download_attachments, hres]
    cases issueResp with
    | error e => rfl
    | ok issue =>
        simp only
        by_cases hemp : issue.attachments.isEmpty
        · simp [hemp]
        · simp only [hemp, if_false, Bool.false_eq_true]
          cases hr : (downloadLoop fr issue.attachments ⟨true, fs.files⟩).1 <;>
            simp [hr]
  · simp only [upload_attachment, hres]
    by_cases hf : fs.hasFile (osPathJoin "tmp" filename)
    · simp only [hf, if_true]
      cases postResp <;> simp
    · simp [hf]

/-- C7 witness at concrete inputs. -/
theorem c7_env_issue_key_used_witness :
    (download_attachments cfgA none (Except.error "boom")
        (fun _ => Except.ok "xx") fsF).requests.head?
      = some ⟨Method.get, pyStr cfgA.jiraUrl ++ "/rest/api/3/issue/" ++ "DA-9"⟩
    ∧ ∀ q ∈ (upload_attachment cfgA "f.txt" none (Except.ok ()) fsF).requests,
        q.url = pyStr cfgA.jiraUrl ++ "/rest/api/3/issue/" ++ "DA-9" ++ "/attachments" :=
  c7_env_issue_key_used cfgA none "DA-9" (Except.error "boom")
    (fun _ => Except.ok "xx") "f.txt" (Except.ok ()) fsF (by decide) (by decide)

/-- C9: an issue key outside the configured project only produces a warning:
both operations still issue the HTTP request for that issue unchanged. -/
theorem c9_membership_check_never_blocks (cfg : Config) (k filename : String)
    (issueResp : Except String IssuePayload) (fr : String → Except String String)
    (postResp : Except String Unit) (fs : FS)
    (hk : falsy (some k) = false) (hw : startsWithProj cfg k = false)
    (hfile : fs.hasFile (osPathJoin "tmp" filename) = true) :
    ((Level.warning, "Issue key " ++ k ++ " does not belong to configured project "
        ++ pyStr cfg.projectKey)
      ∈ (download_attachments cfg (some k) issueResp fr fs).log)
    ∧ (download_attachments cfg (some k) issueResp fr fs).requests.head?
        = some ⟨Method.get, pyStr cfg.jiraUrl ++ "/rest/api/3/issue/" ++ k⟩
    ∧ ((Level.warning, "Issue key " ++ k ++ " does not belong to configured project "
        ++ pyStr cfg.projectKey)
      ∈ (upload_attachment cfg filename (some k) postResp fs).log)
    ∧ (upload_attachment cfg filename (some k) postResp fs).requests
        = [⟨Method.post, pyStr cfg.jiraUrl ++ "/rest/api/3/issue/" ++ k ++ "/attachments"⟩] := by
  have hres := resolveIssueKey_truthy cfg k hk
  have hwarn : projWarnLog cfg k
      = [(Level.warning, "Issue key " ++ k ++ " does not belong to configured project "
          ++ pyStr cfg.projectKey)] := by
    simp [projWarnLog, hw]
  refine ⟨?_, ?_, ?_, ?_⟩
  · simp only [download_attachments, hres]
    cases issueResp with
    | error e => simp [hwarn]
    | ok issue =>
        simp only
        by_cases hemp : issue.attachments.isEmpty
        · simp [hemp, hwarn]
        · simp only [hemp, if_false, Bool.false_eq_true]
          cases hr : (downloadLoop fr issue.attachments ⟨true, fs.files⟩).1 <;>
            simp [hr, hwarn]
  · simp only [download_attachments, hres]
    cases issueResp with
    | error e => rfl
    | ok issue =>
        simp only
        by_cases hemp : issue.attachments.isEmpty
        · simp [hemp]
        · simp only [hemp, if_false, Bool.false_eq_true]
          cases hr : (downloadLoop fr issue.attachments ⟨true, fs.files⟩).1 <;>
            simp [hr]
  · simp only [upload_attachment, hres]
    simp only [hfile, if_true]
    cases postResp <;> simp [hwarn]
  · simp only [upload_attachment, hres]
    simp only [hfile, if_true]
    cases postResp <;> simp

/-- C9 witness at concrete inputs. -/
theorem c9_membership_check_never_blocks_witness :
    ((Level.warning, "Issue key " ++ "XX-1" ++ " does not belong to configured project "
        ++ pyStr cfgA.projectKey)
      ∈ (download_attachments cfgA (some "XX-1") (Except.error "boom")
          (fun _ => Except.ok "xx") fsF).log)
    ∧ (download_attachments cfgA (some "XX-1") (Except.error "boom")
        (fun _ => Except.ok "xx") fsF).requests.head?
        = some ⟨Method.get, pyStr cfgA.jiraUrl ++ "/rest/api/3/issue/" ++ "XX-1"⟩
    ∧ ((Level.warning, "Issue key " ++ "XX-1" ++ " does not belong to configured project "
        ++ pyStr cfgA.projectKey)
      ∈ (upload_attachment cfgA "f.txt" (some "XX-1") (Except.ok ()) fsF).log)
    ∧ (upload_attachment cfgA "f.txt" (some "XX-1") (Except.ok ()) fsF).requests
        = [⟨Method.post, pyStr cfgA.jiraUrl ++ "/rest/api/3/issue/" ++ "XX-1" ++ "/attachments"⟩] :=
  c9_membership_check_never_blocks cfgA "XX-1" "f.txt" (Except.error "boom")
    (fun _ => Except.ok "xx") (Except.ok ()) fsF (by decide) (by decide) (by decide)

end Jira3

namespace Jira3

/-- C3: every RequestException raised by an underlying HTTP call is caught
inside the operation, an error is logged, the request is not retried, and
the operation returns None. -/
theorem c3_http_failures_caught_logged_no_retry (cfg : Config) (e : String)
    (k filename : String) (payload : IssuePayload)
    (fr : String → Except String String) (fs : FS)
    (hk : falsy (some k) = false)
    (hfail : payload.attachments.any (fun a => isErr (fr a.content)) = true)
    (hfile : fs.hasFile (osPathJoin "tmp" filename) = true) :
    ((get_epic_name_field_id cfg (Except.error e) fs).outcome = Outcome.ok none
      ∧ hasError (get_epic_name_field_id cfg (Except.error e) fs).log = true
      ∧ (get_epic_name_field_id cfg (Except.error e) fs).requests.length = 1)
    ∧ ((get_project_info cfg (Except.error e) fs).outcome = Outcome.ok none
      ∧ hasError (get_project_info cfg (Except.error e) fs).log = true
      ∧ (get_project_info cfg (Except.error e) fs).requests.length = 1)
    ∧ ((download_attachments cfg (some k) (Except.error e) fr fs).outcome = Outcome.ok none
      ∧ hasError (download_attachments cfg (some k) (Except.error e) fr fs).log = true
      ∧ (download_attachments cfg (some k) (Except.error e) fr fs).requests.length = 1
      ∧ (download_attachments cfg (some k) (Except.error e) fr fs).fs = fs)
    ∧ ((download_attachments cfg (some k) (Except.ok payload) fr fs).outcome = Outcome.ok none
      ∧ hasError (download_attachments cfg (some k) (Except.ok payload) fr fs).log = true
      ∧ (download_attachments cfg (some k) (Except.ok payload) fr fs).requests.length
          ≤ 1 + payload.attachments.length)
    ∧ ((upload_attachment cfg filename (some k) (Except.error e) fs).outcome = Outcome.ok none
      ∧ hasError (upload_attachment cfg filename (some k) (Except.error e) fs).log = true
      ∧ (upload_attachment cfg filename (some k) (Except.error e) fs).requests.length = 1) := by
  have hres := resolveIssueKey_truthy cfg k hk
  have hne : payload.attachments.isEmpty = false := by
    cases hcase : payload.attachments with
    | nil => rw [hcase] at hfail; simp at hfail
    | cons a rest => simp [hcase]
  obtain ⟨err, herr⟩ := downloadLoop_err fr payload.attachments ⟨true, fs.files⟩ hfail
  refine ⟨?_, ?_, ?_, ?_, ?_⟩
  · exact ⟨rfl, rfl, rfl⟩
  · exact ⟨rfl, rfl, rfl⟩
  · simp [download_attachments, hres, hasError]
  · refine ⟨?_, ?_, ?_⟩
    · simp only [download_attachments, hres, hne, if_false, Bool.false_eq_true, herr]
    · simp only [download_attachments, hres, hne, if_false, Bool.false_eq_true]
      simp [herr, hasError, List.any_append]
    · simp only [download_attachments, hres, hne, if_false, Bool.false_eq_true]
      simp only [herr, List.length_cons]
      have := downloadLoop_reqs_len fr payload.attachments ⟨true, fs.files⟩
      omega
  · simp [upload_attachment, hres, hfile, hasError]

/-- C3 witness at concrete inputs. -/
theorem c3_http_failures_witness :
    ((get_epic_name_field_id cfgA (Except.error "boom") fsF).outcome = Outcome.ok none
      ∧ hasError (get_epic_name_field_id cfgA (Except.error "boom") fsF).log = true
      ∧ (get_epic_name_field_id cfgA (Except.error "boom") fsF).requests.length = 1)
    ∧ ((get_project_info cfgA (Except.error "boom") fsF).outcome = Outcome.ok none
      ∧ hasError (get_project_info cfgA (Except.error "boom") fsF).log = true
      ∧ (get_project_info cfgA (Except.error "boom") fsF).requests.length = 1)
    ∧ ((download_attachments cfgA (some "DA-1") (Except.error "boom")
          (fun _ => Except.error "boom") fsF).outcome = Outcome.ok none
      ∧ hasError (download_attachments cfgA (some "DA-1") (Except.error "boom")
          (fun _ => Except.error "boom") fsF).log = true
      ∧ (download_attachments cfgA (some "DA-1") (Except.error "boom")
          (fun _ => Except.error "boom") fsF).requests.length = 1
      ∧ (download_attachments cfgA (some "DA-1") (Except.error "boom")
          (fun _ => Except.error "boom") fsF).fs = fsF)
    ∧ ((download_attachments cfgA (some "DA-1") (Except.ok goodPayload)
          (fun _ => Except.error "boom") fsF).outcome = Outcome.ok none
      ∧ hasError (download_attachments cfgA (some "DA-1") (Except.ok goodPayload)
          (fun _ => Except.error "boom") fsF).log = true
      ∧ (download_attachments cfgA (some "DA-1") (Except.ok goodPayload)
          (fun _ => Except.error "boom") fsF).requests.length
          ≤ 1 + goodPayload.attachments.length)
    ∧ ((upload_attachment cfgA "f.txt" (some "DA-1") (Except.error "boom") fsF).outcome
          = Outcome.ok none
      ∧ hasError (upload_attachment cfgA "f.txt" (some "DA-1")
          (Except.error "boom") fsF).log = true
      ∧ (upload_attachment cfgA "f.txt" (some "DA-1")
          (Except.error "boom") fsF).requests.length = 1) :=
  c3_http_failures_caught_logged_no_retry cfgA "boom" "DA-1" "f.txt" goodPayload
    (fun _ => Except.error "boom") fsF (by decide) (by decide) (by decide)

end Jira3
